import Mathlib

/-!
A shallow embedding of `demo/createBRISKvocab.cpp`.

The demo program loads the images of a directory, extracts binary descriptors
from every sixth one, reshapes each descriptor matrix into a list of one-row
matrices and hands the result to a vocabulary / database library.

Conventions of the embedding

* a C++ `int` is a Lean `Int`; the conversion of a container size to `int`
  wraps at 32 bits (`sizeToInt`) and a signed overflow of a loop counter is
  undefined behaviour;
* undefined behaviour (index out of range, signed overflow) and an uncaught
  exception end the run with a `Fault`; every function of the program returns
  `Except Fault` of its result;
* `std::vector<T>` is `List T`; an index expression `v[i]` with an `int` index is
  `vecAt v i`, an assignment `v[i] = x` is `vecAssign v i x`;
* calls into the vocabulary / database library are recorded, with their
  arguments, in a trace; they are assumed to return normally, and their results
  are never inspected by the program;
* the directory listing (`cv::glob`) and the descriptors of each image
  (`cv::imread`, `detect`, `compute`) are read from an environment `Env`; these
  calls too are assumed to return normally;
* console output is not modelled, and `wait()`, which `main` never calls (its
  call is commented out), is left out.
-/

namespace CreateBRISKvocab

/-! ## Machine integers and vectors -/

/-- The ways a run can go wrong. -/
inductive Fault where
  -- an index of a `std::vector` or a row of a `cv::Mat` out of range
  | outOfRange
  -- overflow of a signed `int`
  | signedOverflow
  -- `std::length_error` thrown by `reserve`, never caught
  | lengthError
  -- the iteration bound of a loop of the model is used up
  | outOfFuel
deriving DecidableEq, Repr

/-- Largest value of a 32-bit `int`. -/
def INT_MAX : Int := 2147483647

/-- Conversion of an unsigned container size to a 32-bit `int`
(two's complement wrap-around), as in `NIMAGES = filenames.size()`. -/
def sizeToInt (n : Nat) : Int :=
  if n % 4294967296 < 2147483648 then ((n % 4294967296 : Nat) : Int)
  else ((n % 4294967296 : Nat) : Int) - 4294967296

/-- The read `v[i]` of a `std::vector` with an `int` index: the index is
converted to the unsigned size type, so a negative index is out of range. -/
def vecAt {α : Type} (v : List α) (i : Int) : Except Fault α :=
  if i < 0 then Except.error Fault.outOfRange
  else
    match v[i.toNat]? with
    | none => Except.error Fault.outOfRange
    | some x => Except.ok x

/-- The write `v[i] = x` of a `std::vector` with an `int` index. -/
def vecAssign {α : Type} (v : List α) (i : Int) (x : α) : Except Fault (List α) :=
  if i < 0 then Except.error Fault.outOfRange
  else if i.toNat < v.length then Except.ok (v.set i.toNat x)
  else Except.error Fault.outOfRange

/-- The call `v.resize(n)`: truncate to `n` elements, or append
default-constructed elements up to `n`. -/
def resize {α : Type} (v : List α) (n : Nat) (dflt : α) : List α :=
  v.take n ++ List.replicate (n - v.length) dflt

/-- The reference `v.back()`. -/
def back {α : Type} (v : List α) : Except Fault α :=
  match v.getLast? with
  | none => Except.error Fault.outOfRange
  | some x => Except.ok x

/-- Writing through the reference `v.back()`. -/
def setBack {α : Type} (v : List α) (x : α) : Except Fault (List α) :=
  match v with
  | [] => Except.error Fault.outOfRange
  | _ :: _ => Except.ok (v.dropLast ++ [x])

/-! ## Matrices -/

/-- A two-dimensional `cv::Mat` of bytes, as the list of its rows. -/
structure Mat where
  data : List (List Nat)
deriving DecidableEq, Repr

/-- The default-constructed, empty `cv::Mat()`. -/
def Mat.empty : Mat := ⟨[]⟩

instance : Inhabited Mat := ⟨Mat.empty⟩

/-- The field `rows` of a `cv::Mat` (an `int`). -/
def Mat.rows (m : Mat) : Int := (m.data.length : Int)

/-- The call `m.row(y)`: the one-row matrix holding row `y` of `m`. -/
def Mat.row (m : Mat) (y : Int) : Except Fault Mat :=
  match vecAt m.data y with
  | Except.error e => Except.error e
  | Except.ok r => Except.ok (Mat.mk [r])

/-! ## changeStructure -/

/-- The loop `for(int i = 0; i < plain.rows; ++i) out[i] = plain.row(i);`
of `changeStructure`, entered at counter `i`.  The counter stays below
`plain.rows`, itself an `int`, so `++i` cannot overflow.  The first argument
bounds the number of iterations. -/
def changeStructureLoop (plain : Mat) : Nat → Int → List Mat → Except Fault (List Mat)
  | 0, _, _ => Except.error Fault.outOfFuel
  | fuel + 1, i, out =>
    if i < plain.rows then
      match plain.row i with
      | Except.error e => Except.error e
      | Except.ok r =>
        match vecAssign out i r with
        | Except.error e => Except.error e
        | Except.ok out1 => changeStructureLoop plain fuel (i + 1) out1
    else Except.ok out

/-- The function `changeStructure(const cv::Mat &plain, vector<cv::Mat> &out)`.
Both parameters are references; the result is the pair of their final values. -/
def changeStructure (plain : Mat) (out : List Mat) : Except Fault (Mat × List Mat) :=
  let out0 := resize out plain.rows.toNat Mat.empty
  match changeStructureLoop plain (plain.rows.toNat + 1) 0 out0 with
  | Except.error e => Except.error e
  | Except.ok out1 => Except.ok (plain, out1)

/-- The list of the one-row matrices of `plain`, in row order. -/
def rowList (plain : Mat) : List Mat := plain.data.map (fun r => Mat.mk [r])


/-! ## The library and the program state -/

/-- Modelled from the spec: the enumeration `WeightingType` is declared in the
library header `DBoW2.h`, which is not part of the source; the spec names the
TF-IDF weighting, the program uses `TF_IDF`; no other enumerator is known. -/
inductive WeightingType where
  | TF_IDF
deriving DecidableEq, Repr

/-- Modelled from the spec: the enumeration `ScoringType` is declared in the
library header `DBoW2.h`, which is not part of the source; the spec names the
L1 and L2 scorings, the program uses `L1_NORM`. -/
inductive ScoringType where
  | L1_NORM
  | L2_NORM
deriving DecidableEq, Repr

/-- The observable steps of a run: the entry of each function of the program
with the feature list it receives, and each call into the vocabulary / database
library with its arguments. -/
inductive Event where
  -- entry of `loadFeatures(features)`
  | enterLoadFeatures (features : List (List Mat))
  -- entry of `testVocCreation(features)`
  | enterTestVocCreation (features : List (List Mat))
  -- entry of `testDatabase(features)`
  | enterTestDatabase (features : List (List Mat))
  -- `BRISKVocabulary voc(k, L, weight, score)`
  | vocNew (k L : Int) (weight : WeightingType) (score : ScoringType)
  -- `BRISKVocabulary voc(filename)`
  | vocLoad (filename : String)
  -- `voc.create(features)`
  | vocCreate (features : List (List Mat))
  -- `voc.save(filename)`
  | vocSave (filename : String)
  -- `BRISKDatabase db(voc, use_di, di_levels)`
  | dbNew (use_di : Bool) (di_levels : Int)
  -- `db.add(features)`
  | dbAdd (image : List Mat)
  -- `db.query(features, ret, max_results)`
  | dbQuery (image : List Mat) (max_results : Int)
  -- `db.save(filename)`
  | dbSave (filename : String)
  -- `BRISKDatabase db2(filename)`
  | dbLoad (filename : String)
deriving DecidableEq, Repr

/-- The global state of the program: the global `int NIMAGES` and the trace of
the events so far. -/
structure State where
  NIMAGES : Int
  trace : List Event
deriving DecidableEq, Repr

/-- The state in which `main` starts: `int NIMAGES = 4;`, nothing done yet. -/
def initialState : State := { NIMAGES := 4, trace := [] }

/-- Appending one event to the trace. -/
def State.emit (st : State) (e : Event) : State :=
  { st with trace := st.trace ++ [e] }

/-- What the program reads from outside: the file names that
`cv::glob("/externd/datasets/Bovisa_2008_09_01-FRONTAL/*.png", filenames, false)`
returns, and for each file name the descriptor matrix that `cv::imread`,
`BRISK_detector->detect` and `BRISK_extractor->compute` yield for that image. -/
structure Env where
  filenames : List String
  descriptors : String → Mat

/-! ## loadFeatures -/

/-- The loop `for (int i=0; i<NIMAGES; i+=6)` of `loadFeatures`, entered at
counter `i`: read `filenames[i]`, compute its descriptors, push an empty vector
on `features` and fill it by `changeStructure(descriptors, features.back())`.
The step `i+=6` overflows when `i + 6` exceeds `INT_MAX`.  The first argument
bounds the number of iterations. -/
def loadFeaturesLoop (env : Env) (NIMAGES : Int) :
    Nat → Int → List (List Mat) → Except Fault (List (List Mat))
  | 0, _, _ => Except.error Fault.outOfFuel
  | fuel + 1, i, features =>
    if i < NIMAGES then
      match vecAt env.filenames i with
      | Except.error e => Except.error e
      | Except.ok file =>
        let descriptors := env.descriptors file
        let features1 := features ++ [[]]
        match back features1 with
        | Except.error e => Except.error e
        | Except.ok last =>
          match changeStructure descriptors last with
          | Except.error e => Except.error e
          | Except.ok (_, out) =>
            match setBack features1 out with
            | Except.error e => Except.error e
            | Except.ok features2 =>
              if i + 6 > INT_MAX then Except.error Fault.signedOverflow
              else loadFeaturesLoop env NIMAGES fuel (i + 6) features2
    else Except.ok features

/-- The function `loadFeatures(vector<vector<cv::Mat > > &features)`:
`features.clear()`, `features.reserve(NIMAGES)` (which throws `length_error`
when the old `NIMAGES` is negative, and otherwise changes only the capacity),
`NIMAGES = filenames.size()`, then the loop.  The result is the final state and
the final value of the reference parameter `features`. -/
def loadFeatures (env : Env) (st : State) (features : List (List Mat)) :
    Except Fault (State × List (List Mat)) :=
  let st1 := st.emit (Event.enterLoadFeatures features)
  let features0 : List (List Mat) := []
  if st1.NIMAGES < 0 then Except.error Fault.lengthError
  else
    let st2 : State := { st1 with NIMAGES := sizeToInt env.filenames.length }
    match loadFeaturesLoop env st2.NIMAGES (st2.NIMAGES.toNat + 1) 0 features0 with
    | Except.error e => Except.error e
    | Except.ok features1 => Except.ok (st2, features1)

/-! ## testVocCreation -/

/-- The function `testVocCreation(const vector<vector<cv::Mat > > &features)`:
`k = 10`, `L = 6`, `weight = TF_IDF`, `score = L1_NORM`,
`BRISKVocabulary voc(k, L, weight, score)`, `voc.create(features)`,
`voc.save("large_voc.yml.gz")`. -/
def testVocCreation (st : State) (features : List (List Mat)) : State :=
  let st := st.emit (Event.enterTestVocCreation features)
  let k : Int := 10
  let L : Int := 6
  let weight := WeightingType.TF_IDF
  let score := ScoringType.L1_NORM
  let st := st.emit (Event.vocNew k L weight score)
  let st := st.emit (Event.vocCreate features)
  let st := st.emit (Event.vocSave "large_voc.yml.gz")
  st

/-! ## testDatabase -/

/-- The loop `for(int i = 0; i < NIMAGES; i++) db.add(features[i]);`, entered at
counter `i`.  The counter stays below `NIMAGES`, so `i++` cannot overflow. -/
def addLoop (features : List (List Mat)) :
    Nat → Int → State → Except Fault State
  | 0, _, _ => Except.error Fault.outOfFuel
  | fuel + 1, i, st =>
    if i < st.NIMAGES then
      match vecAt features i with
      | Except.error e => Except.error e
      | Except.ok image => addLoop features fuel (i + 1) (st.emit (Event.dbAdd image))
    else Except.ok st

/-- The loop `for(int i = 0; i < NIMAGES; i++) db.query(features[i], ret, 4);`,
entered at counter `i`. -/
def queryLoop (features : List (List Mat)) :
    Nat → Int → State → Except Fault State
  | 0, _, _ => Except.error Fault.outOfFuel
  | fuel + 1, i, st =>
    if i < st.NIMAGES then
      match vecAt features i with
      | Except.error e => Except.error e
      | Except.ok image => queryLoop features fuel (i + 1) (st.emit (Event.dbQuery image 4))
    else Except.ok st

/-- The function `testDatabase(const vector<vector<cv::Mat > > &features)`:
load the vocabulary `"small_voc.yml.gz"`, build `BRISKDatabase db(voc, false, 0)`,
add `features[i]` for every `i < NIMAGES`, query `features[i]` for every
`i < NIMAGES`, save the database to `"small_db.yml.gz"` and load it again. -/
def testDatabase (st : State) (features : List (List Mat)) : Except Fault State :=
  let st := st.emit (Event.enterTestDatabase features)
  let st := st.emit (Event.vocLoad "small_voc.yml.gz")
  let st := st.emit (Event.dbNew false 0)
  match addLoop features (st.NIMAGES.toNat + 1) 0 st with
  | Except.error e => Except.error e
  | Except.ok st1 =>
    match queryLoop features (st1.NIMAGES.toNat + 1) 0 st1 with
    | Except.error e => Except.error e
    | Except.ok st2 =>
      let st3 := st2.emit (Event.dbSave "small_db.yml.gz")
      let st4 := st3.emit (Event.dbLoad "small_db.yml.gz")
      Except.ok st4

/-! ## main -/

/-- The function `main`: an empty `features`, `loadFeatures(features)`,
`testVocCreation(features)`, `return 0`.  The calls `wait()` and
`testDatabase(features)` are commented out in the source.  The result is the
return value and the final state. -/
def main (env : Env) : Except Fault (Int × State) :=
  let features : List (List Mat) := []
  match loadFeatures env initialState features with
  | Except.error e => Except.error e
  | Except.ok (st1, features1) =>
    let st2 := testVocCreation st1 features1
    Except.ok (0, st2)

/-! ## Reading a trace -/

/-- The calls of the program's own functions in a trace. -/
def isCall : Event → Bool
  | Event.enterLoadFeatures _ => true
  | Event.enterTestVocCreation _ => true
  | Event.enterTestDatabase _ => true
  | _ => false

/-- The names of the files written in a trace, in order. -/
def filesWritten : List Event → List String
  | [] => []
  | Event.vocSave f :: es => f :: filesWritten es
  | Event.dbSave f :: es => f :: filesWritten es
  | _ :: es => filesWritten es

/-- A directory listing of `n` distinct file names. -/
def numberedNames (n : Nat) : List String :=
  (List.range n).map (fun k => "/externd/datasets/Bovisa_2008_09_01-FRONTAL/" ++ toString k ++ ".png")

/-- The environment of a directory holding the images named `names`, every
image yielding the descriptor matrix `m`. -/
def constEnv (names : List String) (m : Mat) : Env :=
  { filenames := names, descriptors := fun _ => m }

/-- The feature list that the loop of `loadFeatures` appends when it runs `r`
more times from the counter `6 * j`: the row lists of the descriptors of the
files `6 * j`, `6 * (j + 1)`, ... -/
def sixthRows (env : Env) (j r : Nat) : List (List Mat) :=
  (List.range' j r).map (fun t => rowList (env.descriptors (env.filenames.getD (6 * t) "")))


/-! ## Lemmas on vectors and on changeStructure -/

theorem vecAt_ok {α : Type} (v : List α) (k : Nat) (h : k < v.length) :
    vecAt v (k : Int) = Except.ok v[k] := by
  unfold vecAt
  have h0 : ¬ ((k : Int) < 0) := by omega
  rw [if_neg h0]
  simp [List.getElem?_eq_getElem h]

theorem vecAt_beyond {α : Type} (v : List α) (k : Nat) (h : v.length ≤ k) :
    vecAt v (k : Int) = Except.error Fault.outOfRange := by
  unfold vecAt
  have h0 : ¬ ((k : Int) < 0) := by omega
  rw [if_neg h0]
  simp [List.getElem?_eq_none h]

theorem vecAssign_ok {α : Type} (v : List α) (k : Nat) (x : α) (h : k < v.length) :
    vecAssign v (k : Int) x = Except.ok (v.set k x) := by
  unfold vecAssign
  have h0 : ¬ ((k : Int) < 0) := by omega
  simp [h0, h]

theorem row_ok (plain : Mat) (k : Nat) (h : k < plain.data.length) :
    plain.row (k : Int) = Except.ok (Mat.mk [plain.data[k]]) := by
  unfold Mat.row
  rw [vecAt_ok plain.data k h]

theorem take_succ_set {α : Type} (v : List α) (k : Nat) (x : α) (h : k < v.length) :
    (v.set k x).take (k + 1) = v.take k ++ [x] := by
  induction v generalizing k with
  | nil => simp at h
  | cons a t ih =>
    cases k with
    | zero => simp
    | succ k =>
      simp only [List.length_cons, Nat.add_lt_add_iff_right] at h
      simp [ih k h]

theorem rowList_length (plain : Mat) : (rowList plain).length = plain.data.length := by
  simp [rowList]

theorem rowList_drop (plain : Mat) (k : Nat) (h : k < plain.data.length) :
    (rowList plain).drop k = Mat.mk [plain.data[k]] :: (rowList plain).drop (k + 1) := by
  have hk : k < (rowList plain).length := by rw [rowList_length]; exact h
  rw [List.drop_eq_getElem_cons hk]
  simp [rowList]

/-- Invariant of the loop of `changeStructure`: entered at counter `k` with a
vector of `plain.rows` elements, it keeps the first `k` elements and writes the
rows `k, k+1, ...` behind them. -/
theorem changeStructureLoop_eq (plain : Mat) (fuel k : Nat) (out : List Mat)
    (hlen : out.length = plain.data.length) (hk : k ≤ plain.data.length)
    (hfuel : plain.data.length - k < fuel) :
    changeStructureLoop plain fuel (k : Int) out
      = Except.ok (out.take k ++ (rowList plain).drop k) := by
  induction fuel generalizing k out with
  | zero => omega
  | succ fuel ih =>
    unfold changeStructureLoop
    by_cases hlt : k < plain.data.length
    · have hc : ((k : Int) < plain.rows) := by unfold Mat.rows; omega
      have hset : (out.set k (Mat.mk [plain.data[k]])).length = plain.data.length := by
        simp [hlen]
      have hrec := ih (k + 1) (out.set k (Mat.mk [plain.data[k]])) hset (by omega) (by omega)
      rw [show ((k + 1 : Nat) : Int) = (k : Int) + 1 by push_cast; rfl] at hrec
      rw [if_pos hc]
      simp only [row_ok plain k hlt, vecAssign_ok out k _ (by omega : k < out.length), hrec]
      rw [take_succ_set out k _ (by omega), rowList_drop plain k hlt]
      simp
    · have hc : ¬ ((k : Int) < plain.rows) := by unfold Mat.rows; omega
      have hd : (rowList plain).drop k = [] := by
        apply List.drop_eq_nil_of_le
        rw [rowList_length]; omega
      have ht : out.take k = out := by
        apply List.take_of_length_le
        omega
      rw [if_neg hc, hd, ht]
      simp

theorem resize_length {α : Type} (v : List α) (n : Nat) (d : α) :
    (resize v n d).length = n := by
  unfold resize
  simp
  omega

/-- Closed form of `changeStructure`: whatever `out` held, it ends as the list of
the one-row matrices of `plain`, and `plain` is returned as it was. -/
theorem changeStructure_eq (plain : Mat) (out : List Mat) :
    changeStructure plain out = Except.ok (plain, rowList plain) := by
  unfold changeStructure
  have hr : plain.rows.toNat = plain.data.length := by unfold Mat.rows; simp
  have h := changeStructureLoop_eq plain (plain.rows.toNat + 1) 0
    (resize out plain.rows.toNat Mat.empty)
    (by rw [resize_length, hr]) (Nat.zero_le _) (by rw [hr]; omega)
  simp only [Nat.cast_zero, List.take_zero, List.nil_append, List.drop_zero] at h
  simp only [h]

/-! ## Lemmas on loadFeatures -/

theorem back_concat {α : Type} (v : List α) (a : α) : back (v ++ [a]) = Except.ok a := by
  simp [back]

theorem setBack_concat {α : Type} (v : List α) (a x : α) :
    setBack (v ++ [a]) x = Except.ok (v ++ [x]) := by
  unfold setBack
  split
  · next h => simp at h
  · simp [List.dropLast_concat]

theorem sizeToInt_le (n : Nat) : sizeToInt n ≤ (n : Int) := by
  unfold sizeToInt
  split <;> omega

theorem sizeToInt_le_max (n : Nat) : sizeToInt n ≤ INT_MAX := by
  unfold sizeToInt INT_MAX
  split <;> omega

theorem sizeToInt_small (n : Nat) (h : n ≤ 2147483647) : sizeToInt n = (n : Int) := by
  unfold sizeToInt
  have h1 : n % 4294967296 = n := Nat.mod_eq_of_lt (by omega)
  rw [h1, if_pos (by omega)]

/-- One successful pass through the body of the loop of `loadFeatures`, at a
counter `6 * j` below the bound and within the file names. -/
theorem loadFeaturesLoop_step (env : Env) (M : Int) (fuel j : Nat)
    (features : List (List Mat))
    (hc : ((6 * j : Nat) : Int) < M) (hjn : 6 * j < env.filenames.length) :
    loadFeaturesLoop env M (fuel + 1) ((6 * j : Nat) : Int) features
      = if ((6 * j : Nat) : Int) + 6 > INT_MAX then Except.error Fault.signedOverflow
        else loadFeaturesLoop env M fuel (((6 * j : Nat) : Int) + 6)
          (features ++ [rowList (env.descriptors (env.filenames[6 * j]))]) := by
  rw [loadFeaturesLoop, if_pos hc]
  simp only [vecAt_ok env.filenames (6 * j) hjn, back_concat, changeStructure_eq,
    setBack_concat]

/-- Invariant of the loop of `loadFeatures`, for a bound `M` that is at most
the number of files and below `INT_MAX`. -/
theorem loadFeaturesLoop_eq (env : Env) (M : Int)
    (hM : M ≤ (env.filenames.length : Int)) (hmax : M < INT_MAX)
    (r j fuel : Nat) (features : List (List Mat))
    (hge : M ≤ ((6 * (j + r) : Nat) : Int))
    (hlt : ∀ t : Nat, t < j + r → ((6 * t : Nat) : Int) < M)
    (hfuel : r < fuel) :
    loadFeaturesLoop env M fuel ((6 * j : Nat) : Int) features
      = Except.ok (features ++ sixthRows env j r) := by
  induction r generalizing j fuel features with
  | zero =>
    cases fuel with
    | zero => omega
    | succ fuel =>
      have hc : ¬ (((6 * j : Nat) : Int) < M) := by
        simp only [Nat.add_zero] at hge
        omega
      rw [loadFeaturesLoop, if_neg hc]
      simp [sixthRows]
  | succ r ih =>
    cases fuel with
    | zero => omega
    | succ fuel =>
      have hc : ((6 * j : Nat) : Int) < M := hlt j (by omega)
      have hjn : 6 * j < env.filenames.length := by omega
      have hov : ¬ (((6 * j : Nat) : Int) + 6 > INT_MAX) := by
        unfold INT_MAX at *
        omega
      have hrec := ih (j + 1) fuel
        (features ++ [rowList (env.descriptors (env.filenames[6 * j]))])
        (by rw [show j + 1 + r = j + (r + 1) by omega]; exact hge)
        (fun t ht => hlt t (by omega)) (by omega)
      rw [show ((6 * (j + 1) : Nat) : Int) = ((6 * j : Nat) : Int) + 6 by push_cast; ring]
        at hrec
      rw [loadFeaturesLoop_step env M fuel j features hc hjn, if_neg hov, hrec]
      simp [sixthRows, List.range'_succ, List.getD_eq_getElem?_getD,
        List.getElem?_eq_getElem hjn]

/-- Closed form of `loadFeatures` whenever the number of files, converted to
`int`, is not `INT_MAX`: `NIMAGES` becomes that number and `features` holds one
row list for every sixth file below it. -/
theorem loadFeatures_eq (env : Env) (st : State) (prior : List (List Mat))
    (hst : 0 ≤ st.NIMAGES) (hN : sizeToInt env.filenames.length ≠ INT_MAX) :
    loadFeatures env st prior
      = Except.ok ({ NIMAGES := sizeToInt env.filenames.length,
                     trace := st.trace ++ [Event.enterLoadFeatures prior] },
              sixthRows env 0 (((sizeToInt env.filenames.length).toNat + 5) / 6)) := by
  have hle := sizeToInt_le env.filenames.length
  have hmax : sizeToInt env.filenames.length < INT_MAX := by
    have := sizeToInt_le_max env.filenames.length
    omega
  have hloop := loadFeaturesLoop_eq env (sizeToInt env.filenames.length) hle hmax
    (((sizeToInt env.filenames.length).toNat + 5) / 6) 0
    ((sizeToInt env.filenames.length).toNat + 1) []
    (by omega) (fun t ht => by omega) (by omega)
  unfold loadFeatures
  have hneg : ¬ ((st.emit (Event.enterLoadFeatures prior)).NIMAGES < 0) := by
    simp only [State.emit]
    omega
  simp only [Nat.mul_zero, Nat.cast_zero, List.nil_append] at hloop
  simp only [hneg, if_false, hloop]
  rfl

theorem sixthRows_length (env : Env) (j r : Nat) : (sixthRows env j r).length = r := by
  simp [sixthRows]

theorem sixthRows_getElem? (env : Env) (r t : Nat) (ht : t < r)
    (hn : 6 * t < env.filenames.length) :
    (sixthRows env 0 r)[t]? = some (rowList (env.descriptors (env.filenames[6 * t]))) := by
  unfold sixthRows
  rw [List.getElem?_map, List.getElem?_range' _ _ ht]
  simp [List.getD_eq_getElem?_getD, List.getElem?_eq_getElem hn]

/-- The loop of `loadFeatures` with the bound `INT_MAX`: it runs up to the
counter 2147483646, whose step `i+=6` overflows. -/
theorem loadFeaturesLoop_overflow (env : Env)
    (hN : 2147483647 ≤ env.filenames.length)
    (r j fuel : Nat) (features : List (List Mat))
    (hj : j + r = 357913941) (hfuel : r < fuel) :
    loadFeaturesLoop env INT_MAX fuel ((6 * j : Nat) : Int) features
      = Except.error Fault.signedOverflow := by
  induction r generalizing j fuel features with
  | zero =>
    cases fuel with
    | zero => omega
    | succ fuel =>
      have hc : ((6 * j : Nat) : Int) < INT_MAX := by unfold INT_MAX; omega
      have hov : ((6 * j : Nat) : Int) + 6 > INT_MAX := by unfold INT_MAX; omega
      rw [loadFeaturesLoop_step env INT_MAX fuel j features hc (by omega), if_pos hov]
  | succ r ih =>
    cases fuel with
    | zero => omega
    | succ fuel =>
      have hc : ((6 * j : Nat) : Int) < INT_MAX := by unfold INT_MAX; omega
      have hov : ¬ (((6 * j : Nat) : Int) + 6 > INT_MAX) := by unfold INT_MAX; omega
      have hjn : 6 * j < env.filenames.length := by omega
      have hrec := ih (j + 1) fuel
        (features ++ [rowList (env.descriptors (env.filenames.get ⟨6 * j, hjn⟩))])
        (by omega) (by omega)
      rw [show ((6 * (j + 1) : Nat) : Int) = ((6 * j : Nat) : Int) + 6 by push_cast; ring]
        at hrec
      rw [loadFeaturesLoop_step env INT_MAX fuel j features hc hjn, if_neg hov]
      exact hrec

/-- When the number of files, converted to `int`, is `INT_MAX`, `loadFeatures`
ends in a signed overflow of its loop counter. -/
theorem loadFeatures_overflow (env : Env) (st : State) (prior : List (List Mat))
    (hst : 0 ≤ st.NIMAGES) (hN : sizeToInt env.filenames.length = INT_MAX) :
    loadFeatures env st prior = Except.error Fault.signedOverflow := by
  have hlen : 2147483647 ≤ env.filenames.length := by
    have := sizeToInt_le env.filenames.length
    rw [hN] at this
    unfold INT_MAX at this
    omega
  have hloop := loadFeaturesLoop_overflow env hlen 357913941 0 (INT_MAX.toNat + 1) []
    (by omega) (by unfold INT_MAX; omega)
  unfold loadFeatures
  have hneg : ¬ ((st.emit (Event.enterLoadFeatures prior)).NIMAGES < 0) := by
    simp only [State.emit]
    omega
  simp only [Nat.mul_zero, Nat.cast_zero] at hloop
  simp only [hneg, if_false, hN, hloop]

theorem constEnv_length (names : List String) (m : Mat) :
    (constEnv names m).filenames.length = names.length := rfl

theorem numberedNames_length (n : Nat) : (numberedNames n).length = n := by
  unfold numberedNames
  rw [List.length_map, List.length_range]

/-- When the number of files, converted to `int`, is `INT_MAX`, `main` ends in
the signed overflow of `loadFeatures`. -/
theorem main_overflow (env : Env) (hN : sizeToInt env.filenames.length = INT_MAX) :
    main env = Except.error Fault.signedOverflow := by
  unfold main
  simp only [loadFeatures_overflow env initialState [] (by decide) hN]

/-- When the number of files, converted to `int`, is negative, the loop of
`loadFeatures` is not entered and `features` stays empty. -/
theorem loadFeatures_wrap (env : Env) (st : State) (prior : List (List Mat))
    (hst : 0 ≤ st.NIMAGES) (hN : sizeToInt env.filenames.length < 0) :
    loadFeatures env st prior
      = Except.ok ({ NIMAGES := sizeToInt env.filenames.length,
                     trace := st.trace ++ [Event.enterLoadFeatures prior] }, []) := by
  have hne : sizeToInt env.filenames.length ≠ INT_MAX := by
    unfold INT_MAX
    omega
  have h0 : ((sizeToInt env.filenames.length).toNat + 5) / 6 = 0 := by omega
  rw [loadFeatures_eq env st prior hst hne, h0]
  rfl

theorem sizeToInt_wrap : sizeToInt 2147483648 = -2147483648 := by
  unfold sizeToInt
  norm_num

/-! ## Lemmas on testDatabase -/

theorem drop_take_succ {α : Type} (v : List α) (k m : Nat) (h : k < v.length) :
    (v.drop k).take (m + 1) = v[k] :: (v.drop (k + 1)).take m := by
  rw [List.drop_eq_getElem_cons h, List.take_succ_cons]

/-- Invariant of the first loop of `testDatabase`: entered at counter `k`, it
adds the images `k, ..., NIMAGES - 1` in index order. -/
theorem addLoop_eq (features : List (List Mat)) (fuel k : Nat) (st : State)
    (hlen : st.NIMAGES ≤ (features.length : Int))
    (hfuel : st.NIMAGES.toNat - k < fuel) :
    addLoop features fuel (k : Int) st
      = Except.ok { NIMAGES := st.NIMAGES,
                    trace := st.trace ++
                      ((features.drop k).take (st.NIMAGES.toNat - k)).map Event.dbAdd } := by
  induction fuel generalizing k st with
  | zero => omega
  | succ fuel ih =>
    unfold addLoop
    by_cases hc : (k : Int) < st.NIMAGES
    · have hk : k < features.length := by omega
      have hrec := ih (k + 1) (st.emit (Event.dbAdd features[k])) hlen
        (by simp only [State.emit]; omega)
      rw [show ((k + 1 : Nat) : Int) = (k : Int) + 1 by push_cast; rfl] at hrec
      rw [if_pos hc]
      simp only [vecAt_ok features k hk, hrec]
      rw [show st.NIMAGES.toNat - k = (st.NIMAGES.toNat - (k + 1)) + 1 by omega,
        drop_take_succ features k _ hk]
      simp [State.emit]
    · rw [if_neg hc]
      have h0 : st.NIMAGES.toNat - k = 0 := by omega
      simp [h0]

/-- Invariant of the second loop of `testDatabase`: entered at counter `k`, it
queries the images `k, ..., NIMAGES - 1` in index order, at most 4 results each. -/
theorem queryLoop_eq (features : List (List Mat)) (fuel k : Nat) (st : State)
    (hlen : st.NIMAGES ≤ (features.length : Int))
    (hfuel : st.NIMAGES.toNat - k < fuel) :
    queryLoop features fuel (k : Int) st
      = Except.ok { NIMAGES := st.NIMAGES,
                    trace := st.trace ++
                      ((features.drop k).take (st.NIMAGES.toNat - k)).map
                        (fun image => Event.dbQuery image 4) } := by
  induction fuel generalizing k st with
  | zero => omega
  | succ fuel ih =>
    unfold queryLoop
    by_cases hc : (k : Int) < st.NIMAGES
    · have hk : k < features.length := by omega
      have hrec := ih (k + 1) (st.emit (Event.dbQuery features[k] 4)) hlen
        (by simp only [State.emit]; omega)
      rw [show ((k + 1 : Nat) : Int) = (k : Int) + 1 by push_cast; rfl] at hrec
      rw [if_pos hc]
      simp only [vecAt_ok features k hk, hrec]
      rw [show st.NIMAGES.toNat - k = (st.NIMAGES.toNat - (k + 1)) + 1 by omega,
        drop_take_succ features k _ hk]
      simp [State.emit]
    · rw [if_neg hc]
      have h0 : st.NIMAGES.toNat - k = 0 := by omega
      simp [h0]

/-- Closed form of `testDatabase` on a feature list of at least `NIMAGES`
entries. -/
theorem testDatabase_eq (st : State) (features : List (List Mat))
    (hlen : st.NIMAGES ≤ (features.length : Int)) :
    testDatabase st features
      = Except.ok { NIMAGES := st.NIMAGES,
                    trace := st.trace ++
                      [Event.enterTestDatabase features, Event.vocLoad "small_voc.yml.gz",
                        Event.dbNew false 0] ++
                      (features.take st.NIMAGES.toNat).map Event.dbAdd ++
                      (features.take st.NIMAGES.toNat).map
                        (fun image => Event.dbQuery image 4) ++
                      [Event.dbSave "small_db.yml.gz", Event.dbLoad "small_db.yml.gz"] } := by
  unfold testDatabase
  have hadd := addLoop_eq features (st.NIMAGES.toNat + 1) 0
    (((st.emit (Event.enterTestDatabase features)).emit
      (Event.vocLoad "small_voc.yml.gz")).emit (Event.dbNew false 0))
    hlen (by simp only [State.emit]; omega)
  simp only [Nat.cast_zero, List.drop_zero, Nat.sub_zero] at hadd
  simp only [State.emit] at hadd ⊢
  simp only [hadd]
  have hq := queryLoop_eq features (st.NIMAGES.toNat + 1) 0
    { NIMAGES := st.NIMAGES,
      trace := st.trace ++ [Event.enterTestDatabase features] ++
        [Event.vocLoad "small_voc.yml.gz"] ++ [Event.dbNew false 0] ++
        (features.take st.NIMAGES.toNat).map Event.dbAdd }
    hlen (by show st.NIMAGES.toNat - 0 < st.NIMAGES.toNat + 1; omega)
  simp only [Nat.cast_zero, List.drop_zero, Nat.sub_zero] at hq
  simp only [hq]
  simp

/-- The first loop of `testDatabase` on a feature list shorter than `NIMAGES`:
entered at a counter `k` within `features`, it reaches the index
`features.length` and reads out of range. -/
theorem addLoop_out_of_range (features : List (List Mat)) (fuel k : Nat) (st : State)
    (hk : k ≤ features.length) (hlen : (features.length : Int) < st.NIMAGES)
    (hfuel : features.length - k < fuel) :
    addLoop features fuel (k : Int) st = Except.error Fault.outOfRange := by
  induction fuel generalizing k st with
  | zero => omega
  | succ fuel ih =>
    unfold addLoop
    have hc : (k : Int) < st.NIMAGES := by omega
    rw [if_pos hc]
    by_cases hlt : k < features.length
    · have hrec := ih (k + 1) (st.emit (Event.dbAdd features[k])) (by omega)
        (by simp only [State.emit]; omega) (by omega)
      rw [show ((k + 1 : Nat) : Int) = (k : Int) + 1 by push_cast; rfl] at hrec
      simp only [vecAt_ok features k hlt, hrec]
    · simp only [vecAt_beyond features k (by omega)]

/-- Whenever `features` has fewer entries than `NIMAGES`, `testDatabase` ends in
an access out of range. -/
theorem testDatabase_out_of_range (st : State) (features : List (List Mat))
    (hlen : (features.length : Int) < st.NIMAGES) :
    testDatabase st features = Except.error Fault.outOfRange := by
  unfold testDatabase
  have hadd := addLoop_out_of_range features (st.NIMAGES.toNat + 1) 0
    (((st.emit (Event.enterTestDatabase features)).emit
      (Event.vocLoad "small_voc.yml.gz")).emit (Event.dbNew false 0))
    (Nat.zero_le _) hlen (by omega)
  simp only [Nat.cast_zero] at hadd
  simp only [State.emit] at hadd ⊢
  simp only [hadd]

/-! ## The claims -/

/-- C1: for every matrix `plain` and every prior content of `out`,
`changeStructure(plain, out)` returns normally, leaves `plain` as it was and
leaves in `out` exactly `plain.rows` elements, the `i`-th of which is row `i` of
`plain` for every `0 <= i < plain.rows`. -/
theorem C1_changeStructure_rows (plain : Mat) (out : List Mat) :
    ∃ res : List Mat,
      changeStructure plain out = Except.ok (plain, res) ∧
      (res.length : Int) = plain.rows ∧
      ∀ i : Int, 0 ≤ i → i < plain.rows →
        ∃ row : List Nat, plain.data[i.toNat]? = some row ∧
          plain.row i = Except.ok (Mat.mk [row]) ∧
          vecAt res i = Except.ok (Mat.mk [row]) := by
  refine ⟨rowList plain, changeStructure_eq plain out, ?_, ?_⟩
  · simp [rowList_length, Mat.rows]
  · intro i h0 hi
    obtain ⟨k, rfl⟩ := Int.eq_ofNat_of_zero_le h0
    have hk : k < plain.data.length := by unfold Mat.rows at hi; omega
    have hk2 : k < (rowList plain).length := by rw [rowList_length]; exact hk
    refine ⟨plain.data[k], ?_, row_ok plain k hk, ?_⟩
    · simp [List.getElem?_eq_getElem hk]
    · rw [vecAt_ok (rowList plain) k hk2]
      simp [rowList]

/-- C1 at a matrix of three rows and a vector that held one other matrix. -/
theorem C1_changeStructure_rows_witness :
    ∃ res : List Mat,
      changeStructure (Mat.mk [[1, 2], [3, 4], [5, 6]]) [Mat.mk [[9]]]
        = Except.ok (Mat.mk [[1, 2], [3, 4], [5, 6]], res) ∧
      (res.length : Int) = (Mat.mk [[1, 2], [3, 4], [5, 6]]).rows ∧
      ∀ i : Int, 0 ≤ i → i < (Mat.mk [[1, 2], [3, 4], [5, 6]]).rows →
        ∃ row : List Nat, (Mat.mk [[1, 2], [3, 4], [5, 6]]).data[i.toNat]? = some row ∧
          (Mat.mk [[1, 2], [3, 4], [5, 6]]).row i = Except.ok (Mat.mk [row]) ∧
          vecAt res i = Except.ok (Mat.mk [row]) :=
  C1_changeStructure_rows (Mat.mk [[1, 2], [3, 4], [5, 6]]) [Mat.mk [[9]]]

/-- C2, as stated, fails: on a directory of 2147483647 images `main` does not
return 0; the step `i+=6` of the loop of `loadFeatures` overflows at the counter
2147483646. -/
theorem C2_main_overflow :
    main (constEnv (numberedNames 2147483647) Mat.empty)
      = Except.error Fault.signedOverflow :=
  main_overflow (constEnv (numberedNames 2147483647) Mat.empty) (by
    rw [constEnv_length, numberedNames_length, sizeToInt_small 2147483647 (Nat.le_refl _)]
    rfl)

/-- C2, amended: whenever the number of files of the directory, converted to
`int`, is not `INT_MAX`, `main` calls `loadFeatures` once on an empty feature
list, then `testVocCreation` once on the features `loadFeatures` produced, calls
nothing else of the program (`testDatabase` is never entered) and returns 0. -/
theorem C2_main_sequence (env : Env) (hN : sizeToInt env.filenames.length ≠ INT_MAX) :
    ∃ (st1 : State) (feats : List (List Mat)) (st2 : State),
      loadFeatures env initialState [] = Except.ok (st1, feats) ∧
      main env = Except.ok (0, st2) ∧
      st2.trace = [Event.enterLoadFeatures [], Event.enterTestVocCreation feats,
        Event.vocNew 10 6 WeightingType.TF_IDF ScoringType.L1_NORM,
        Event.vocCreate feats, Event.vocSave "large_voc.yml.gz"] ∧
      st2.trace.filter isCall
        = [Event.enterLoadFeatures [], Event.enterTestVocCreation feats] := by
  have h := loadFeatures_eq env initialState [] (by decide) hN
  refine ⟨{ NIMAGES := sizeToInt env.filenames.length,
            trace := initialState.trace ++ [Event.enterLoadFeatures []] },
    sixthRows env 0 (((sizeToInt env.filenames.length).toNat + 5) / 6),
    testVocCreation { NIMAGES := sizeToInt env.filenames.length,
                      trace := initialState.trace ++ [Event.enterLoadFeatures []] }
      (sixthRows env 0 (((sizeToInt env.filenames.length).toNat + 5) / 6)),
    h, ?_, ?_, ?_⟩
  · unfold main
    simp only [h]
  · simp [testVocCreation, State.emit, initialState]
  · simp [testVocCreation, State.emit, initialState, isCall]

/-- C2, amended, at a directory of two images. -/
theorem C2_main_sequence_witness :
    sizeToInt (constEnv ["a.png", "b.png"] (Mat.mk [[1, 2], [3, 4]])).filenames.length
      ≠ INT_MAX ∧
    ∃ (st1 : State) (feats : List (List Mat)) (st2 : State),
      loadFeatures (constEnv ["a.png", "b.png"] (Mat.mk [[1, 2], [3, 4]])) initialState []
        = Except.ok (st1, feats) ∧
      main (constEnv ["a.png", "b.png"] (Mat.mk [[1, 2], [3, 4]])) = Except.ok (0, st2) ∧
      st2.trace = [Event.enterLoadFeatures [], Event.enterTestVocCreation feats,
        Event.vocNew 10 6 WeightingType.TF_IDF ScoringType.L1_NORM,
        Event.vocCreate feats, Event.vocSave "large_voc.yml.gz"] ∧
      st2.trace.filter isCall
        = [Event.enterLoadFeatures [], Event.enterTestVocCreation feats] :=
  ⟨by decide, C2_main_sequence (constEnv ["a.png", "b.png"] (Mat.mk [[1, 2], [3, 4]]))
    (by decide)⟩

/-- C3: for every feature list, `testVocCreation` builds one vocabulary with
`k = 10`, `L = 6`, `TF_IDF` and `L1_NORM`, then calls `create` once on the feature
list it was given, then `save` once on `"large_voc.yml.gz"`; that is the only file
it writes, and `NIMAGES` is left alone. -/
theorem C3_testVocCreation_calls (st : State) (features : List (List Mat)) :
    testVocCreation st features
      = { NIMAGES := st.NIMAGES,
          trace := st.trace ++
            [Event.enterTestVocCreation features,
              Event.vocNew 10 6 WeightingType.TF_IDF ScoringType.L1_NORM,
              Event.vocCreate features, Event.vocSave "large_voc.yml.gz"] } ∧
    filesWritten
        [Event.enterTestVocCreation features,
          Event.vocNew 10 6 WeightingType.TF_IDF ScoringType.L1_NORM,
          Event.vocCreate features, Event.vocSave "large_voc.yml.gz"]
      = ["large_voc.yml.gz"] := by
  constructor
  · simp [testVocCreation, State.emit]
  · rfl

/-- C4 fails on a directory of two images: after `loadFeatures`, `NIMAGES` is 2
while `features` holds one descriptor list. -/
theorem C4_two_images_NIMAGES :
    loadFeatures (constEnv ["a.png", "b.png"] (Mat.mk [[1, 2], [3, 4]])) initialState []
      = Except.ok ({ NIMAGES := 2, trace := [Event.enterLoadFeatures []] },
          [[Mat.mk [[1, 2]], Mat.mk [[3, 4]]]]) := by
  rfl

/-- C5, as stated, fails: on a directory of 2147483648 images `NIMAGES` wraps to
a negative `int`, the loop is not entered and `features` ends with no entry,
not with the 357913942 entries the claim promises. -/
theorem C5_loadFeatures_wrap :
    ∃ (st : State) (feats : List (List Mat)),
      loadFeatures (constEnv (numberedNames 2147483648) Mat.empty) initialState []
        = Except.ok (st, feats) ∧
      feats.length = 0 ∧
      ((constEnv (numberedNames 2147483648) Mat.empty).filenames.length + 5) / 6
        = 357913942 := by
  have hlen : (constEnv (numberedNames 2147483648) Mat.empty).filenames.length
      = 2147483648 := by
    rw [constEnv_length, numberedNames_length]
  have hs : sizeToInt (constEnv (numberedNames 2147483648) Mat.empty).filenames.length
      < 0 := by
    rw [hlen, sizeToInt_wrap]
    decide
  refine ⟨_, [], loadFeatures_wrap _ initialState [] (by decide) hs, rfl, ?_⟩
  rw [hlen]

/-- C5, amended: for every list of `N <= 2147483646` file names and every prior
content of `features`, `loadFeatures`, entered with a non-negative `NIMAGES`,
returns normally (no index out of range, no overflow) and leaves `features` with
exactly `ceil(N/6)` entries, entry `j` being what `changeStructure` yields for the
descriptors of the file `names[6*j]`. -/
theorem C5_loadFeatures_every_sixth (env : Env) (st : State) (prior : List (List Mat))
    (hst : 0 ≤ st.NIMAGES) (hN : env.filenames.length ≤ 2147483646) :
    ∃ (st1 : State) (feats : List (List Mat)),
      loadFeatures env st prior = Except.ok (st1, feats) ∧
      feats.length = (env.filenames.length + 5) / 6 ∧
      ∀ j : Nat, j < (env.filenames.length + 5) / 6 →
        ∃ (file : String) (rows : List Mat),
          vecAt env.filenames ((6 * j : Nat) : Int) = Except.ok file ∧
          changeStructure (env.descriptors file) []
            = Except.ok (env.descriptors file, rows) ∧
          feats[j]? = some rows := by
  have hs : sizeToInt env.filenames.length = (env.filenames.length : Int) :=
    sizeToInt_small _ (by omega)
  have hne : sizeToInt env.filenames.length ≠ INT_MAX := by
    rw [hs]
    unfold INT_MAX
    omega
  have htn : (sizeToInt env.filenames.length).toNat = env.filenames.length := by
    rw [hs]
    simp
  refine ⟨_, _, loadFeatures_eq env st prior hst hne, ?_, ?_⟩
  · rw [sixthRows_length, htn]
  · intro j hj
    have hjn : 6 * j < env.filenames.length := by omega
    refine ⟨env.filenames[6 * j], rowList (env.descriptors (env.filenames[6 * j])),
      vecAt_ok env.filenames (6 * j) hjn, changeStructure_eq _ _, ?_⟩
    rw [htn]
    exact sixthRows_getElem? env _ j hj hjn

/-- C5, amended, at a directory of seven images, called with one stale entry in
`features`. -/
theorem C5_loadFeatures_every_sixth_witness :
    (0 ≤ initialState.NIMAGES ∧
      (constEnv ["0.png", "1.png", "2.png", "3.png", "4.png", "5.png", "6.png"]
        (Mat.mk [[1, 2], [3, 4]])).filenames.length ≤ 2147483646) ∧
    ∃ (st1 : State) (feats : List (List Mat)),
      loadFeatures (constEnv ["0.png", "1.png", "2.png", "3.png", "4.png", "5.png", "6.png"]
          (Mat.mk [[1, 2], [3, 4]])) initialState [[Mat.mk [[9]]]]
        = Except.ok (st1, feats) ∧
      feats.length = ((constEnv ["0.png", "1.png", "2.png", "3.png", "4.png", "5.png", "6.png"]
          (Mat.mk [[1, 2], [3, 4]])).filenames.length + 5) / 6 ∧
      ∀ j : Nat, j < ((constEnv ["0.png", "1.png", "2.png", "3.png", "4.png", "5.png", "6.png"]
          (Mat.mk [[1, 2], [3, 4]])).filenames.length + 5) / 6 →
        ∃ (file : String) (rows : List Mat),
          vecAt (constEnv ["0.png", "1.png", "2.png", "3.png", "4.png", "5.png", "6.png"]
            (Mat.mk [[1, 2], [3, 4]])).filenames ((6 * j : Nat) : Int) = Except.ok file ∧
          changeStructure ((constEnv ["0.png", "1.png", "2.png", "3.png", "4.png", "5.png",
              "6.png"] (Mat.mk [[1, 2], [3, 4]])).descriptors file) []
            = Except.ok ((constEnv ["0.png", "1.png", "2.png", "3.png", "4.png", "5.png",
              "6.png"] (Mat.mk [[1, 2], [3, 4]])).descriptors file, rows) ∧
          feats[j]? = some rows :=
  ⟨⟨by decide, by decide⟩,
    C5_loadFeatures_every_sixth
      (constEnv ["0.png", "1.png", "2.png", "3.png", "4.png", "5.png", "6.png"]
        (Mat.mk [[1, 2], [3, 4]])) initialState [[Mat.mk [[9]]]] (by decide) (by decide)⟩

/-- C6 fails on a directory of two images: `loadFeatures` leaves `NIMAGES = 2` and
one entry in `features`, and the first loop of `testDatabase` then reads
`features[1]`, out of range. -/
theorem C6_testDatabase_out_of_range :
    loadFeatures (constEnv ["a.png", "b.png"] (Mat.mk [[1, 2], [3, 4]])) initialState []
      = Except.ok ({ NIMAGES := 2, trace := [Event.enterLoadFeatures []] },
          [[Mat.mk [[1, 2]], Mat.mk [[3, 4]]]]) ∧
    testDatabase { NIMAGES := 2, trace := [Event.enterLoadFeatures []] }
        [[Mat.mk [[1, 2]], Mat.mk [[3, 4]]]]
      = Except.error Fault.outOfRange :=
  ⟨rfl, rfl⟩

/-- C7: for every feature list with at least `NIMAGES` entries, `testDatabase`
returns normally after exactly these library calls, in this order: load the
vocabulary, build the database with `use_di = false` and `di_levels = 0`, add
`features[0], ..., features[NIMAGES-1]` once each, query the same images in the
same order with at most 4 results each, save the database to `"small_db.yml.gz"`,
load a database from `"small_db.yml.gz"`. -/
theorem C7_testDatabase_sequence (st : State) (features : List (List Mat))
    (hlen : st.NIMAGES ≤ (features.length : Int)) :
    testDatabase st features
      = Except.ok { NIMAGES := st.NIMAGES,
                    trace := st.trace ++
                      [Event.enterTestDatabase features, Event.vocLoad "small_voc.yml.gz",
                        Event.dbNew false 0] ++
                      (features.take st.NIMAGES.toNat).map Event.dbAdd ++
                      (features.take st.NIMAGES.toNat).map
                        (fun image => Event.dbQuery image 4) ++
                      [Event.dbSave "small_db.yml.gz", Event.dbLoad "small_db.yml.gz"] } :=
  testDatabase_eq st features hlen

/-- C7 at `NIMAGES = 2` and a feature list of three images. -/
theorem C7_testDatabase_sequence_witness :
    ((2 : Int) ≤ (([[Mat.mk [[1]]], [Mat.mk [[2]]], [Mat.mk [[3]]]] :
        List (List Mat)).length : Int)) ∧
    testDatabase { NIMAGES := 2, trace := [] } [[Mat.mk [[1]]], [Mat.mk [[2]]], [Mat.mk [[3]]]]
      = Except.ok { NIMAGES := 2,
                    trace := [Event.enterTestDatabase
                        [[Mat.mk [[1]]], [Mat.mk [[2]]], [Mat.mk [[3]]]],
                      Event.vocLoad "small_voc.yml.gz", Event.dbNew false 0,
                      Event.dbAdd [Mat.mk [[1]]], Event.dbAdd [Mat.mk [[2]]],
                      Event.dbQuery [Mat.mk [[1]]] 4, Event.dbQuery [Mat.mk [[2]]] 4,
                      Event.dbSave "small_db.yml.gz", Event.dbLoad "small_db.yml.gz"] } :=
  ⟨by decide,
    C7_testDatabase_sequence { NIMAGES := 2, trace := [] }
      [[Mat.mk [[1]]], [Mat.mk [[2]]], [Mat.mk [[3]]]] (by decide)⟩

end CreateBRISKvocab
